import Mathlib

set_option autoImplicit false

/-!
Verification of the tiered storage resilience engine of the
AI-Chrome-Extension repository: the error classifier and retry
orchestrator (src/errorRecovery.js), the tiered storage manager
(src/storageLayerManager.js), and the validated record store
(src/profileStorage.js together with the StorageManager of
src/unnamed/part_003).

The JavaScript source is shallowly embedded: thrown errors become an
explicit error structure, promise-returning operations become pure state
transformers returning an Except value together with the updated state,
and setTimeout delays are collected into an explicit list of delay
durations so that backoff behaviour is observable.
-/

/-- A JavaScript error value as inspected by errorRecovery.js: only its
name and its (possibly missing) message are consulted. The message is an
Option because classifyError accesses it with optional chaining. -/
structure JSError where
  name : String
  message : Option String
deriving DecidableEq

/-- The StorageErrors taxonomy object of src/errorRecovery.js. -/
def StorageErrors.QUOTA_EXCEEDED : String := "QuotaExceededError"

/-- See StorageErrors in src/errorRecovery.js. -/
def StorageErrors.INVALID_DATA : String := "InvalidDataError"

/-- See StorageErrors in src/errorRecovery.js. -/
def StorageErrors.API_ERROR : String := "StorageAPIError"

/-- See StorageErrors in src/errorRecovery.js. -/
def StorageErrors.NETWORK_ERROR : String := "NetworkError"

/-- See StorageErrors in src/errorRecovery.js. -/
def StorageErrors.TIMEOUT_ERROR : String := "TimeoutError"

/-- The Config object of src/errorRecovery.js. -/
def Config.maxRetries : Nat := 3

/-- Base retry delay in milliseconds (Config.retryDelay). -/
def Config.retryDelay : Nat := 1000

/-- Maximum retry delay in milliseconds (Config.maxDelay). -/
def Config.maxDelay : Nat := 5000

/-- Exponential backoff multiplier (Config.backoffFactor). -/
def Config.backoffFactor : Nat := 2

/-- Helper for the JavaScript expression needle.isPrefixOf applied along
the haystack: decides whether one character list occurs contiguously
inside another, mirroring String.prototype.includes. -/
def charsInclude (needle : List Char) : List Char → Bool
  | [] => needle.isEmpty
  | c :: rest => needle.isPrefixOf (c :: rest) || charsInclude needle rest

/-- JavaScript String.prototype.includes on whole strings. -/
def strIncludes (hay needle : String) : Bool :=
  charsInclude needle.toList hay.toList

/-- The optional-chained test error.message?.includes(s) used by
classifyError: a missing message makes the test false. -/
def msgIncludes (e : JSError) (s : String) : Bool :=
  match e.message with
  | some m => strIncludes m s
  | none => false

/-- ErrorHandler.classifyError of src/errorRecovery.js, translated
branch for branch. -/
def classifyError (e : JSError) : String :=
  if e.name = "QuotaExceededError" then StorageErrors.QUOTA_EXCEEDED
  else if msgIncludes e "timeout" then StorageErrors.TIMEOUT_ERROR
  else if msgIncludes e "network" then StorageErrors.NETWORK_ERROR
  else if msgIncludes e "invalid" || msgIncludes e "format" then StorageErrors.INVALID_DATA
  else StorageErrors.API_ERROR

/-- The nonRetryableErrors list inside ErrorHandler.shouldRetryError. -/
def nonRetryableErrors : List String :=
  [StorageErrors.QUOTA_EXCEEDED, StorageErrors.INVALID_DATA]

/-- ErrorHandler.shouldRetryError of src/errorRecovery.js. -/
def shouldRetryError (e : JSError) : Bool :=
  !(nonRetryableErrors.contains (classifyError e))

/-- Worker for retryOperation of src/errorRecovery.js. The operation is a
state transformer (the state models whatever mutable environment the
asynchronous operation touches, including how many times it has been
invoked). The third component of the result collects the setTimeout delay
durations, in order. The fuel argument bounds the recursion for Lean;
the source recursion is itself bounded because it only recurses while
attempt is below Config.maxRetries, and retryOperation below supplies
fuel equal to that bound, so the fuel-exhausted branch (which returns the
same result as the no-retry branch) is never reached from retryOperation.
-/
def retryOperationAux {σ α : Type} (op : σ → Except JSError α × σ)
    (context : String) : Nat → Nat → σ → Except JSError α × σ × List Nat
  | fuel, attempt, s =>
    match op s with
    | (Except.ok v, s1) => (Except.ok v, s1, [])
    | (Except.error e, s1) =>
      if shouldRetryError e && decide (attempt < Config.maxRetries) then
        match fuel with
        | 0 => (Except.error e, s1, [])
        | fuel1 + 1 =>
          let d := min (Config.retryDelay * Config.backoffFactor ^ (attempt - 1))
                       Config.maxDelay
          let rest := retryOperationAux op context fuel1 (attempt + 1) s1
          (rest.1, rest.2.1, d :: rest.2.2)
      else (Except.error e, s1, [])

/-- retryOperation of src/errorRecovery.js, started at attempt 1 as in
the source default argument. Returns the final outcome (the success value
of the first successful invocation, or the original error of the last
failed invocation), the final state of the operation environment, and the
list of backoff delays performed. -/
def retryOperation {σ α : Type} (op : σ → Except JSError α × σ)
    (context : String) (s : σ) : Except JSError α × σ × List Nat :=
  retryOperationAux op context (Config.maxRetries - 1) 1 s

/-!
Tiered Storage Manager (src/storageLayerManager.js). Stored values are
modelled as JavaScript objects with string-valued fields, represented as
association lists of defined fields; these are exactly the values the
manager persists (an object is always truthy, and the JSON stringify and
parse round trip through localStorage preserves its defined fields, so
serialization is the identity on this representation). Each backend is
modelled by its health entry in layerHealth, a working flag (whether the
underlying browser storage currently succeeds or throws), and its backing
key-value store.
-/

/-- A JSON-serializable JavaScript object: its defined fields. -/
abbrev Value := List (String × String)

/-- The LayerStatus enumeration of src/storageLayerManager.js. -/
inductive LayerStatus where
  | available
  | unavailable
  | full
  | error
deriving DecidableEq

/-- One storage backend: its layerHealth entry, whether the underlying
browser storage currently functions (environment assumption: a write,
read or removal succeeds when working is true and throws when it is
false), and the backing store contents. -/
structure Layer where
  health : LayerStatus
  working : Bool
  store : List (String × Value)
deriving DecidableEq

/-- The state of StorageLayerManager: the three ordered backends
(chrome.storage.local, localStorage, sessionStorage). -/
structure SLM where
  prim : Layer
  sec : Layer
  ter : Layer
deriving DecidableEq

/-- Effect of a successful backend write: the key now maps to the value
(association-list update; lookup takes the most recent binding). -/
def writeLayer (l : Layer) (k : String) (v : Value) : Layer :=
  { l with store := (k, v) :: l.store }

/-- Marking a backend ERROR after a failed save or load attempt. -/
def markError (l : Layer) : Layer :=
  { l with health := LayerStatus.error }

/-- The TERTIARY block of StorageLayerManager.saveData followed by the
final throw of the Error with message All storage layers failed. -/
def saveDataTer (s : SLM) (k : String) (v : Value) : Except String Bool × SLM :=
  if s.ter.health = LayerStatus.available then
    if s.ter.working then
      (Except.ok true, { s with ter := writeLayer s.ter k v })
    else
      (Except.error "All storage layers failed", { s with ter := markError s.ter })
  else (Except.error "All storage layers failed", s)

/-- The SECONDARY block of StorageLayerManager.saveData. -/
def saveDataSec (s : SLM) (k : String) (v : Value) : Except String Bool × SLM :=
  if s.sec.health = LayerStatus.available then
    if s.sec.working then
      (Except.ok true, { s with sec := writeLayer s.sec k v })
    else
      saveDataTer { s with sec := markError s.sec } k v
  else saveDataTer s k v

/-- StorageLayerManager.saveData of src/storageLayerManager.js: try the
backends in priority order, writing to the first one that is marked
AVAILABLE and functioning, marking an AVAILABLE backend ERROR when its
write throws, and throwing once every backend has been exhausted. -/
def saveData (s : SLM) (k : String) (v : Value) : Except String Bool × SLM :=
  if s.prim.health = LayerStatus.available then
    if s.prim.working then
      (Except.ok true, { s with prim := writeLayer s.prim k v })
    else
      saveDataSec { s with prim := markError s.prim } k v
  else saveDataSec s k v

/-- The TERTIARY block of StorageLayerManager.loadData followed by the
final return null. A read error marks the backend ERROR; a successful
read that finds nothing falls through without marking. -/
def loadDataTer (s : SLM) (k : String) : Option Value × SLM :=
  if s.ter.health = LayerStatus.available then
    if s.ter.working then
      match s.ter.store.lookup k with
      | some v => (some v, s)
      | none => (none, s)
    else (none, { s with ter := markError s.ter })
  else (none, s)

/-- The SECONDARY block of StorageLayerManager.loadData. -/
def loadDataSec (s : SLM) (k : String) : Option Value × SLM :=
  if s.sec.health = LayerStatus.available then
    if s.sec.working then
      match s.sec.store.lookup k with
      | some v => (some v, s)
      | none => loadDataTer s k
    else loadDataTer { s with sec := markError s.sec } k
  else loadDataTer s k

/-- StorageLayerManager.loadData of src/storageLayerManager.js: read the
backends in priority order, returning the first value found, marking a
backend ERROR when its read throws, and returning null when no backend
yields a value. -/
def loadData (s : SLM) (k : String) : Option Value × SLM :=
  if s.prim.health = LayerStatus.available then
    if s.prim.working then
      match s.prim.store.lookup k with
      | some v => (some v, s)
      | none => loadDataSec s k
    else loadDataSec { s with prim := markError s.prim } k
  else loadDataSec s k

/-- Removal of a key from a backing store. -/
def removeKey (st : List (String × Value)) (k : String) : List (String × Value) :=
  st.filter (fun p => p.1 != k)

/-- One of the clearChromeStorage, clearLocalStorage, clearSessionStorage
helpers of src/storageLayerManager.js: attempt the removal, report true
on success and false when the backend throws, and never touch the health
table. -/
def clearLayer (l : Layer) (k : String) : Bool × Layer :=
  if l.working then (true, { l with store := removeKey l.store k })
  else (false, l)

/-- StorageLayerManager.clearData of src/storageLayerManager.js: attempt
removal on all three backends regardless of health status and report
success when at least one removal succeeded. -/
def clearData (s : SLM) (k : String) : Bool × SLM :=
  let r1 := clearLayer s.prim k
  let r2 := clearLayer s.sec k
  let r3 := clearLayer s.ter k
  (r1.1 || r2.1 || r3.1, { prim := r1.2, sec := r2.2, ter := r3.2 })

/-- A backend is tried by saveData and loadData exactly when its health
is AVAILABLE; a tried backend that is not functioning is marked ERROR,
and a skipped backend keeps its health. This helper names the resulting
health transition of one cascade pass over a backend that did not
succeed. -/
def demoteTried (l : Layer) : Layer :=
  if l.health = LayerStatus.available then markError l else l

/-!
Validated record store: the StorageManager of src/unnamed/part_003 and
the ProfileStorage class of src/profileStorage.js. StorageManager wraps
every operation in ErrorRecovery.retryOperation and talks directly to
chrome.storage.local under the fixed key linkedInProfile; the chrome
backend environment is modelled by a working flag, the error it throws
when not working, and the stored record under that key.
-/

/-- The STORAGE_KEYS.PROFILE constant of the StorageManager. -/
def STORAGE_KEYS.PROFILE : String := "linkedInProfile"

/-- The STORAGE_KEYS.VERSION schema constant of the StorageManager. -/
def STORAGE_KEYS.VERSION : String := "1.0"

/-- The in-memory profileData record of ProfileStorage: four content
fields and the lastUpdated timestamp, each null (none) until set. -/
structure ProfileRecord where
  name : Option String
  headline : Option String
  currentRole : Option String
  company : Option String
  lastUpdated : Option String
deriving DecidableEq

/-- The all-null record ProfileStorage starts from and resets to. -/
def emptyProfile : ProfileRecord :=
  { name := none, headline := none, currentRole := none,
    company := none, lastUpdated := none }

/-- The record persisted by StorageManager.saveProfile: the profile
fields plus the stamped lastUpdated timestamp and schema version. -/
structure StoredProfile where
  name : Option String
  headline : Option String
  currentRole : Option String
  company : Option String
  lastUpdated : String
  version : String
deriving DecidableEq

/-- Environment of the chrome.storage.local backend as used by the
StorageManager: whether operations currently succeed, the error thrown
when they do not, and the record stored under the linkedInProfile key. -/
structure ChromeEnv where
  working : Bool
  err : JSError
  store : Option StoredProfile
deriving DecidableEq

/-- The dataToStore object built inside StorageManager.saveProfile:
spread the profile data, then stamp lastUpdated with the current time and
version with the schema constant. -/
def stampProfile (p : ProfileRecord) (now : String) : StoredProfile :=
  { name := p.name, headline := p.headline, currentRole := p.currentRole,
    company := p.company, lastUpdated := now, version := STORAGE_KEYS.VERSION }

/-- One invocation of the operation passed to retryOperation by
StorageManager.saveProfile: a chrome.storage.local.set of the stamped
record that resolves with true, or throws the backend error. -/
def chromeSetProfile (sp : StoredProfile) (env : ChromeEnv) :
    Except JSError Bool × ChromeEnv :=
  if env.working then (Except.ok true, { env with store := some sp })
  else (Except.error env.err, env)

/-- StorageManager.saveProfile of src/unnamed/part_003: the stamped set
operation wrapped in retryOperation with context storage-save-profile.
The backoff delay list is dropped, as the caller only sees the promise
outcome. -/
def saveProfile (env : ChromeEnv) (p : ProfileRecord) (now : String) :
    Except JSError Bool × ChromeEnv :=
  let r := retryOperation (chromeSetProfile (stampProfile p now))
    "storage-save-profile" env
  (r.1, r.2.1)

/-- One invocation of the operation passed to retryOperation by
StorageManager.loadProfile: a chrome.storage.local.get of the
linkedInProfile key that resolves with the stored record or null, or
throws the backend error. -/
def chromeGetProfile (env : ChromeEnv) :
    Except JSError (Option StoredProfile) × ChromeEnv :=
  if env.working then (Except.ok env.store, env)
  else (Except.error env.err, env)

/-- StorageManager.loadProfile of src/unnamed/part_003: the get
operation wrapped in retryOperation with context storage-load-profile. -/
def loadProfile (env : ChromeEnv) :
    Except JSError (Option StoredProfile) × ChromeEnv :=
  let r := retryOperation chromeGetProfile "storage-load-profile" env
  (r.1, r.2.1)

/-- A partial update passed to ProfileStorage.updateProfile by its
callers (the extraction functions and loadFromStorage): any subset of the
four content fields, none meaning the field is not provided (or is
undefined) and is therefore left untouched by the merge. -/
structure ProfileUpdate where
  name : Option String
  headline : Option String
  currentRole : Option String
  company : Option String
deriving DecidableEq

/-- The merge loop of ProfileStorage.updateProfile: each provided,
defined field overwrites the corresponding field of the existing record;
every other field is preserved. -/
def mergeProfile (p : ProfileRecord) (u : ProfileUpdate) : ProfileRecord :=
  { name := match u.name with | some s => some s | none => p.name,
    headline := match u.headline with | some s => some s | none => p.headline,
    currentRole := match u.currentRole with | some s => some s | none => p.currentRole,
    company := match u.company with | some s => some s | none => p.company,
    lastUpdated := p.lastUpdated }

/-- The record held by ProfileStorage after the merge loop and the
lastUpdated stamp of updateProfile. -/
def mergedRecord (p : ProfileRecord) (u : ProfileUpdate) (now : String) : ProfileRecord :=
  { mergeProfile p u with lastUpdated := some now }

/-- JavaScript truthiness of an optional string field: null and the
empty string are falsy. -/
def truthy : Option String → Bool
  | none => false
  | some s => !(s == "")

/-- ProfileStorage.validateProfile: the record is valid exactly when
none of the four required fields is falsy. -/
def validateProfile (p : ProfileRecord) : Bool :=
  truthy p.name && truthy p.headline && truthy p.currentRole && truthy p.company

/-- The mutable state of the ProfileStorage instance: its in-memory
profileData record and the cached isValid flag. -/
structure PSState where
  profileData : ProfileRecord
  isValid : Bool
deriving DecidableEq

/-- ProfileStorage.updateProfile of src/profileStorage.js: merge the
provided fields, stamp lastUpdated, validate (caching the flag); when the
merged record is valid delegate to StorageManager.saveProfile, returning
false if that save throws after retries and true if it succeeds; when the
record is invalid skip the save entirely and return true. -/
def updateProfile (ps : PSState) (env : ChromeEnv) (u : ProfileUpdate)
    (now : String) : Bool × PSState × ChromeEnv :=
  let merged := mergedRecord ps.profileData u now
  let valid := validateProfile merged
  let ps1 : PSState := { profileData := merged, isValid := valid }
  if valid then
    match saveProfile env merged now with
    | (Except.ok _, env1) => (true, ps1, env1)
    | (Except.error _, env1) => (false, ps1, env1)
  else (true, ps1, env)

/-- ProfileStorage.getProfile: the spread of the in-memory record
together with the cached isValid flag. -/
def getProfile (ps : PSState) : ProfileRecord × Bool :=
  (ps.profileData, ps.isValid)

/-- ProfileStorage.clearProfile of src/profileStorage.js: reset every
in-memory field to null and the cached isValid flag to false. -/
def clearProfile (_ps : PSState) : PSState :=
  { profileData := emptyProfile, isValid := false }

/-- The clear path taken by updateProfileState in src/errorRecovery.js
when leaving LinkedIn: it invokes window.ProfileStorage.clearProfile and
performs no storage operation, so at the system level the chrome backend
environment is passed through untouched. -/
def systemClearProfile (ps : PSState) (env : ChromeEnv) : PSState × ChromeEnv :=
  (clearProfile ps, env)

/-!
Concrete scenario states used by witnesses and counterexamples.
-/

/-- A quota-exceeded-flavored error as the platform throws it. -/
def errQuota : JSError := { name := "QuotaExceededError", message := some "quota exceeded" }

/-- A retryable network-flavored error. -/
def errNetwork : JSError := { name := "Error", message := some "network glitch" }

/-- A generic backend error (classified API_ERROR, retryable). -/
def errDisk : JSError := { name := "Error", message := some "disk failure" }

/-- An operation environment counting invocations: the first two
invocations reject with a network error, the third resolves with 42. -/
def retryTestOp : Nat → Except JSError Nat × Nat :=
  fun n => (if n < 2 then Except.error errNetwork else Except.ok 42, n + 1)

/-- An operation that rejects with the quota error on every invocation. -/
def quotaOp : Unit → Except JSError Bool × Unit := fun u => (Except.error errQuota, u)

/-- A sample stored object with one defined field. -/
def vW : Value := [("name", "A")]

/-- All three backends AVAILABLE and functioning, empty. -/
def slmAllOk : SLM :=
  { prim := { health := LayerStatus.available, working := true, store := [] },
    sec := { health := LayerStatus.available, working := true, store := [] },
    ter := { health := LayerStatus.available, working := true, store := [] } }

/-- Primary AVAILABLE but failing; secondary AVAILABLE and functioning. -/
def slmB : SLM :=
  { prim := { health := LayerStatus.available, working := false, store := [] },
    sec := { health := LayerStatus.available, working := true, store := [] },
    ter := { health := LayerStatus.available, working := true, store := [] } }

/-- Primary skipped as UNAVAILABLE; secondary AVAILABLE but failing;
tertiary AVAILABLE and functioning. -/
def slmC : SLM :=
  { prim := { health := LayerStatus.unavailable, working := true, store := [] },
    sec := { health := LayerStatus.available, working := false, store := [] },
    ter := { health := LayerStatus.available, working := true, store := [] } }

/-- No backend both AVAILABLE and functioning: primary ERROR, secondary
FULL, tertiary AVAILABLE but failing. -/
def slmD : SLM :=
  { prim := { health := LayerStatus.error, working := false, store := [] },
    sec := { health := LayerStatus.full, working := true, store := [] },
    ter := { health := LayerStatus.available, working := false, store := [] } }

/-- The scenario of the fallback claim: the primary backend is marked
ERROR (and is indeed failing), while the secondary backend is AVAILABLE
and functioning. -/
def slmPrimaryDown : SLM :=
  { prim := { health := LayerStatus.error, working := false, store := [] },
    sec := { health := LayerStatus.available, working := true, store := [] },
    ter := { health := LayerStatus.available, working := true, store := [] } }

/-- The freshly constructed ProfileStorage state. -/
def psEmpty : PSState := { profileData := emptyProfile, isValid := false }

/-- A ProfileStorage state holding a complete valid record. -/
def psFull : PSState :=
  { profileData := { name := some "N", headline := some "H", currentRole := some "R",
                     company := some "C", lastUpdated := some "t0" },
    isValid := true }

/-- A chrome.storage.local environment that is functioning and empty. -/
def envUp : ChromeEnv := { working := true, err := errNetwork, store := none }

/-- A chrome.storage.local environment whose operations throw, matching
the scenario in which the primary backend is failing. -/
def envDown : ChromeEnv := { working := false, err := errDisk, store := none }

/-- A partial update that provides only the name field. -/
def uName : ProfileUpdate :=
  { name := some "A", headline := none, currentRole := none, company := none }

/-- A partial update providing all four content fields, so the merged
record is valid and the persistence path is exercised. -/
def uFull : ProfileUpdate :=
  { name := some "A", headline := some "H", currentRole := some "R", company := some "C" }

/-!
Helper lemmas shared by the claim theorems.
-/

/-- Characterization of one full cascade pass of saveData: the first
backend that is both AVAILABLE and functioning receives the value and the
call returns success immediately; every AVAILABLE backend tried before it
is marked ERROR; if no backend qualifies, the all-layers-failed error is
raised with every AVAILABLE backend marked ERROR. -/
lemma saveData_eq (s : SLM) (k : String) (v : Value) :
    saveData s k v =
      if s.prim.health = LayerStatus.available ∧ s.prim.working = true then
        (Except.ok true, { s with prim := writeLayer s.prim k v })
      else if s.sec.health = LayerStatus.available ∧ s.sec.working = true then
        (Except.ok true, { s with prim := demoteTried s.prim, sec := writeLayer s.sec k v })
      else if s.ter.health = LayerStatus.available ∧ s.ter.working = true then
        (Except.ok true, { s with prim := demoteTried s.prim, sec := demoteTried s.sec,
                                  ter := writeLayer s.ter k v })
      else
        (Except.error "All storage layers failed",
         { prim := demoteTried s.prim, sec := demoteTried s.sec, ter := demoteTried s.ter }) := by
  by_cases h1 : s.prim.health = LayerStatus.available <;>
    by_cases h2 : s.prim.working = true <;>
      by_cases h3 : s.sec.health = LayerStatus.available <;>
        by_cases h4 : s.sec.working = true <;>
          by_cases h5 : s.ter.health = LayerStatus.available <;>
            by_cases h6 : s.ter.working = true <;>
              simp_all [saveData, saveDataSec, saveDataTer, demoteTried, markError]

/-- A functioning chrome backend makes saveProfile succeed on the first
retryOperation attempt, storing the stamped record. -/
lemma saveProfile_ok (env : ChromeEnv) (p : ProfileRecord) (now : String)
    (hw : env.working = true) :
    saveProfile env p now = (Except.ok true, { env with store := some (stampProfile p now) }) := by
  simp [saveProfile, retryOperation, retryOperationAux, chromeSetProfile, hw]

/-- A failing chrome backend makes saveProfile propagate the original
backend error once retryOperation gives up, leaving the environment
unchanged (whether or not the error class is retryable). -/
lemma saveProfile_down (env : ChromeEnv) (p : ProfileRecord) (now : String)
    (hw : env.working = false) :
    saveProfile env p now = (Except.error env.err, env) := by
  by_cases hr : shouldRetryError env.err = true <;>
    simp [saveProfile, retryOperation, retryOperationAux, chromeSetProfile, hw, hr,
          Config.maxRetries]

/-- A functioning chrome backend makes loadProfile return the stored
record (or none) on the first attempt. -/
lemma loadProfile_ok (env : ChromeEnv) (hw : env.working = true) :
    loadProfile env = (Except.ok env.store, env) := by
  simp [loadProfile, retryOperation, retryOperationAux, chromeGetProfile, hw]

/-- The ProfileStorage state after updateProfile is the merged, stamped
record with the cached validation flag, on every control path. -/
lemma updateProfile_state (ps : PSState) (env : ChromeEnv) (u : ProfileUpdate) (now : String) :
    (updateProfile ps env u now).2.1 =
      { profileData := mergedRecord ps.profileData u now,
        isValid := validateProfile (mergedRecord ps.profileData u now) } := by
  unfold updateProfile
  by_cases hv : validateProfile (mergedRecord ps.profileData u now) = true
  · rcases hs : saveProfile env (mergedRecord ps.profileData u now) now with ⟨r, env1⟩
    cases r <;> simp [hv, hs]
  · simp [hv]

/-!
Claim theorems.
-/

/-- C1 counterexample. In the scenario of the claim, with the primary
backend marked ERROR in the tiered health table and indeed failing while
the secondary backend is AVAILABLE and functioning, a save issued through
the Validated Record Store (ProfileStorage.updateProfile delegating to
StorageManager.saveProfile) does NOT succeed: updateProfile reports
false, nothing is persisted, and a subsequent loadProfile fails with the
backend error, because saveProfile writes directly to
chrome.storage.local inside retryOperation instead of delegating to the
cascading StorageLayerManager.saveData. -/
theorem recordStoreSave_primary_down_counterexample :
    slmPrimaryDown.prim.health = LayerStatus.error ∧
    slmPrimaryDown.sec.health = LayerStatus.available ∧
    slmPrimaryDown.sec.working = true ∧
    (updateProfile psEmpty envDown uFull "t2").1 = false ∧
    (updateProfile psEmpty envDown uFull "t2").2.2.store = none ∧
    (loadProfile (updateProfile psEmpty envDown uFull "t2").2.2).1 = Except.error errDisk :=
  ⟨rfl, rfl, rfl, rfl, rfl, rfl⟩

/-- C1 amended. The cascading fallback holds one level lower than the
claim states: a save issued directly through the Tiered Storage Manager
while the primary backend is ERROR and the secondary is AVAILABLE and
functioning succeeds and the value is retrievable from the secondary.
The record store itself, however, delegates its save (inside
retryOperation) to the single fixed primary backend, so a record-store
save while that backend is failing returns false after retries and
leaves the backend untouched. -/
theorem tieredFallback_vs_recordStore_amended :
    (∀ (s : SLM) (k : String) (v : Value),
      s.prim.health = LayerStatus.error → s.sec.health = LayerStatus.available →
      s.sec.working = true →
      saveData s k v = (Except.ok true, { s with sec := writeLayer s.sec k v }) ∧
      (loadData (saveData s k v).2 k).1 = some v) ∧
    (∀ (ps : PSState) (env : ChromeEnv) (u : ProfileUpdate) (now : String),
      env.working = false →
      validateProfile (mergedRecord ps.profileData u now) = true →
      (updateProfile ps env u now).1 = false ∧ (updateProfile ps env u now).2.2 = env) := by
  constructor
  · intro s k v hp hs hw
    have hsave : saveData s k v = (Except.ok true, { s with sec := writeLayer s.sec k v }) := by
      rw [saveData_eq]
      simp [hp, hs, hw, demoteTried]
    refine ⟨hsave, ?_⟩
    rw [hsave]
    simp [loadData, loadDataSec, hp, hs, hw, writeLayer, List.lookup]
  · intro ps env u now hw hv
    simp [updateProfile, hv, saveProfile_down env _ now hw]

/-- C1 amended witness: the fallback branch at the concrete
primary-down state, and the record-store branch at the concrete broken
chrome environment with a fully valid update. -/
theorem tieredFallback_vs_recordStore_amended_witness :
    (saveData slmPrimaryDown "linkedInProfile" vW =
      (Except.ok true,
       { slmPrimaryDown with sec := writeLayer slmPrimaryDown.sec "linkedInProfile" vW }) ∧
     (loadData (saveData slmPrimaryDown "linkedInProfile" vW).2 "linkedInProfile").1 = some vW) ∧
    ((updateProfile psEmpty envDown uFull "t2").1 = false ∧
     (updateProfile psEmpty envDown uFull "t2").2.2 = envDown) :=
  ⟨tieredFallback_vs_recordStore_amended.1 slmPrimaryDown "linkedInProfile" vW rfl rfl rfl,
   tieredFallback_vs_recordStore_amended.2 psEmpty envDown uFull "t2" rfl (by decide)⟩

/-- C2 counterexample. A partial-update save on a record that is still
invalid after the merge returns true even though no persistence attempt
was made (and none could have succeeded, the backend being broken): the
environment is returned untouched. This refutes the claim that true is
returned only if the underlying persistence attempt succeeded. -/
theorem updateProfile_true_without_save_counterexample :
    (updateProfile psEmpty envDown uName "t1").1 = true ∧
    (updateProfile psEmpty envDown uName "t1").2.2 = envDown ∧
    envDown.working = false ∧ envDown.store = none :=
  ⟨rfl, rfl, rfl, rfl⟩

/-- C2 amended. When the merged record is valid, updateProfile returns
true exactly when the underlying persistence attempt succeeded, and
returns false (rather than throwing) when the save failed after retries;
when the merged record is invalid, the persistence attempt is skipped
entirely and updateProfile returns true with the backend untouched. -/
theorem updateProfile_soft_failure_amended (ps : PSState) (env : ChromeEnv)
    (u : ProfileUpdate) (now : String) :
    (validateProfile (mergedRecord ps.profileData u now) = true →
      ((updateProfile ps env u now).1 = true ↔ env.working = true)) ∧
    (validateProfile (mergedRecord ps.profileData u now) = false →
      (updateProfile ps env u now).1 = true ∧ (updateProfile ps env u now).2.2 = env) := by
  constructor
  · intro hv
    by_cases hw : env.working = true
    · simp [updateProfile, hv, saveProfile_ok env _ now hw, hw]
    · have hw2 : env.working = false := by simpa using hw
      simp [updateProfile, hv, saveProfile_down env _ now hw2, hw2]
  · intro hv
    simp [updateProfile, hv]

/-- C2 amended witness: a valid update against a functioning backend
returns true; an invalid update against a broken backend still returns
true with the environment untouched. -/
theorem updateProfile_soft_failure_amended_witness :
    (updateProfile psFull envUp uName "t3").1 = true ∧
    ((updateProfile psEmpty envDown uName "t1").1 = true ∧
     (updateProfile psEmpty envDown uName "t1").2.2 = envDown) :=
  ⟨((updateProfile_soft_failure_amended psFull envUp uName "t3").1 (by decide)).mpr rfl,
   (updateProfile_soft_failure_amended psEmpty envDown uName "t1").2 (by decide)⟩

/-- C3. Round-trip law of the Tiered Storage Manager: whenever saveData
returns true, an immediately following loadData of the same key (before
any clear, health change or probe) returns the saved value; the stored
value is a JavaScript object, so equality of the association-list
representation is exactly equality on its defined fields. -/
theorem saveData_loadData_roundtrip (s : SLM) (k : String) (v : Value) (s1 : SLM)
    (h : saveData s k v = (Except.ok true, s1)) :
    (loadData s1 k).1 = some v := by
  rw [saveData_eq] at h
  split_ifs at h with h1 h2 h3
  · obtain ⟨hh, hw⟩ := h1
    simp only [Prod.mk.injEq, true_and] at h
    subst h
    simp [loadData, hh, hw, writeLayer, List.lookup]
  · obtain ⟨hh2, hw2⟩ := h2
    simp only [Prod.mk.injEq, true_and] at h
    subst h
    by_cases hp : s.prim.health = LayerStatus.available
    · simp [loadData, loadDataSec, demoteTried, markError, hp, hh2, hw2, writeLayer, List.lookup]
    · simp [loadData, loadDataSec, demoteTried, hp, hh2, hw2, writeLayer, List.lookup]
  · obtain ⟨hh3, hw3⟩ := h3
    simp only [Prod.mk.injEq, true_and] at h
    subst h
    by_cases hp : s.prim.health = LayerStatus.available <;>
      by_cases hs : s.sec.health = LayerStatus.available <;>
        simp [loadData, loadDataSec, loadDataTer, demoteTried, markError, hp, hs, hh3, hw3,
              writeLayer, List.lookup]
  · simp at h

/-- C3 witness: saving a sample object under the fixed profile key with
all backends healthy and loading it back returns the object. -/
theorem saveData_loadData_roundtrip_witness :
    (loadData (saveData slmAllOk "linkedInProfile" vW).2 "linkedInProfile").1 = some vW :=
  saveData_loadData_roundtrip slmAllOk "linkedInProfile" vW
    (saveData slmAllOk "linkedInProfile" vW).2 rfl

/-- C4. An operation that fails on its first two invocations with
retryable errors and succeeds on the third makes retryOperation return
the third invocation's success value, with exactly two backoff delays of
1000 ms and then 2000 ms before the third attempt, and a final operation
state showing exactly three invocations. -/
theorem retryOperation_fail_twice_succeed_third {σ α : Type}
    (op : σ → Except JSError α × σ) (ctx : String) (s0 s1 s2 s3 : σ)
    (e0 e1 : JSError) (v : α)
    (h0 : op s0 = (Except.error e0, s1)) (hr0 : shouldRetryError e0 = true)
    (h1 : op s1 = (Except.error e1, s2)) (hr1 : shouldRetryError e1 = true)
    (h2 : op s2 = (Except.ok v, s3)) :
    retryOperation op ctx s0 = (Except.ok v, s3, [1000, 2000]) := by
  simp [retryOperation, retryOperationAux, h0, h1, h2, hr0, hr1, Config.maxRetries,
        Config.retryDelay, Config.backoffFactor, Config.maxDelay]

/-- C4 witness: the invocation-counting operation that fails twice with
a network error and then resolves with 42. -/
theorem retryOperation_fail_twice_succeed_third_witness :
    retryOperation retryTestOp "retry-test" 0 = (Except.ok 42, 3, [1000, 2000]) :=
  retryOperation_fail_twice_succeed_third retryTestOp "retry-test" 0 1 2 3
    errNetwork errNetwork 42 rfl (by decide) rfl (by decide) rfl

/-- C5. An operation whose invocation throws an error named
QuotaExceededError makes retryOperation fail immediately: no delay is
performed, the operation state after a single invocation is final (no
re-invocation), and the propagated failure is the original error object
itself. -/
theorem retryOperation_quota_no_retry {σ α : Type}
    (op : σ → Except JSError α × σ) (ctx : String) (s s1 : σ) (e : JSError)
    (h : op s = (Except.error e, s1)) (hq : e.name = "QuotaExceededError") :
    retryOperation op ctx s = (Except.error e, s1, []) := by
  have hc : classifyError e = StorageErrors.QUOTA_EXCEEDED := by
    simp [classifyError, hq]
  have hsr : shouldRetryError e = false := by
    rw [shouldRetryError, hc]; decide
  simp [retryOperation, retryOperationAux, h, hsr]

/-- C5 witness: the always-quota-failing operation fails at once with
the original error and an empty delay list. -/
theorem retryOperation_quota_no_retry_witness :
    retryOperation quotaOp "storage-save-profile" () = (Except.error errQuota, (), []) :=
  retryOperation_quota_no_retry quotaOp "storage-save-profile" () () errQuota rfl rfl

/-- C6. classifyError follows exactly the claimed priority order: a
QuotaExceededError name wins first; otherwise a message containing
timeout; otherwise network; otherwise invalid or format; otherwise the
API_ERROR default. -/
theorem classifyError_priority_order (e : JSError) :
    (e.name = "QuotaExceededError" → classifyError e = StorageErrors.QUOTA_EXCEEDED) ∧
    (e.name ≠ "QuotaExceededError" → msgIncludes e "timeout" = true →
      classifyError e = StorageErrors.TIMEOUT_ERROR) ∧
    (e.name ≠ "QuotaExceededError" → msgIncludes e "timeout" = false →
      msgIncludes e "network" = true → classifyError e = StorageErrors.NETWORK_ERROR) ∧
    (e.name ≠ "QuotaExceededError" → msgIncludes e "timeout" = false →
      msgIncludes e "network" = false →
      (msgIncludes e "invalid" || msgIncludes e "format") = true →
      classifyError e = StorageErrors.INVALID_DATA) ∧
    (e.name ≠ "QuotaExceededError" → msgIncludes e "timeout" = false →
      msgIncludes e "network" = false → msgIncludes e "invalid" = false →
      msgIncludes e "format" = false → classifyError e = StorageErrors.API_ERROR) := by
  refine ⟨?_, ?_, ?_, ?_, ?_⟩ <;> intros <;> simp_all [classifyError]

/-- C6 witness: one concrete error per taxonomy bucket, classified
through the priority theorem. -/
theorem classifyError_priority_order_witness :
    classifyError { name := "QuotaExceededError", message := none } =
      StorageErrors.QUOTA_EXCEEDED ∧
    classifyError { name := "Error", message := some "connection timeout" } =
      StorageErrors.TIMEOUT_ERROR ∧
    classifyError { name := "Error", message := some "network down" } =
      StorageErrors.NETWORK_ERROR ∧
    classifyError { name := "Error", message := some "invalid data" } =
      StorageErrors.INVALID_DATA ∧
    classifyError { name := "Error", message := some "boom" } = StorageErrors.API_ERROR :=
  ⟨(classifyError_priority_order _).1 rfl,
   (classifyError_priority_order _).2.1 (by decide) (by decide),
   (classifyError_priority_order _).2.2.1 (by decide) (by decide) (by decide),
   (classifyError_priority_order _).2.2.2.1 (by decide) (by decide) (by decide) (by decide),
   (classifyError_priority_order _).2.2.2.2 (by decide) (by decide) (by decide) (by decide)
     (by decide)⟩

/-- C7. saveData tries the backends in the fixed order primary,
secondary, tertiary, skipping any backend not marked AVAILABLE; the
first successful write returns success immediately, with exactly that
backend receiving the value and every other backend's store (and the
untried backends' health) left untouched; each failed write marks that
backend ERROR before the next is tried; and when no AVAILABLE backend
succeeds the All storage layers failed error is raised with the stores
unchanged. -/
theorem saveData_cascade_spec (s : SLM) (k : String) (v : Value) :
    (s.prim.health = LayerStatus.available → s.prim.working = true →
      saveData s k v = (Except.ok true, { s with prim := writeLayer s.prim k v })) ∧
    (¬(s.prim.health = LayerStatus.available ∧ s.prim.working = true) →
      s.sec.health = LayerStatus.available → s.sec.working = true →
      saveData s k v =
        (Except.ok true, { s with prim := demoteTried s.prim, sec := writeLayer s.sec k v })) ∧
    (¬(s.prim.health = LayerStatus.available ∧ s.prim.working = true) →
      ¬(s.sec.health = LayerStatus.available ∧ s.sec.working = true) →
      s.ter.health = LayerStatus.available → s.ter.working = true →
      saveData s k v =
        (Except.ok true, { s with prim := demoteTried s.prim, sec := demoteTried s.sec,
                                  ter := writeLayer s.ter k v })) ∧
    (¬(s.prim.health = LayerStatus.available ∧ s.prim.working = true) →
      ¬(s.sec.health = LayerStatus.available ∧ s.sec.working = true) →
      ¬(s.ter.health = LayerStatus.available ∧ s.ter.working = true) →
      saveData s k v =
        (Except.error "All storage layers failed",
         { prim := demoteTried s.prim, sec := demoteTried s.sec,
           ter := demoteTried s.ter })) := by
  refine ⟨?_, ?_, ?_, ?_⟩
  · intro hh hw; rw [saveData_eq]; simp [hh, hw]
  · intro hn hh hw; rw [saveData_eq]; simp [hn, hh, hw]
  · intro hn1 hn2 hh hw; rw [saveData_eq]; simp [hn1, hn2, hh, hw]
  · intro hn1 hn2 hn3; rw [saveData_eq]; simp [hn1, hn2, hn3]

/-- C7 witness: one concrete state per cascade outcome (primary write,
secondary fallback, tertiary fallback, total failure). -/
theorem saveData_cascade_spec_witness :
    saveData slmAllOk "k" vW =
      (Except.ok true, { slmAllOk with prim := writeLayer slmAllOk.prim "k" vW }) ∧
    saveData slmB "k" vW =
      (Except.ok true, { slmB with prim := demoteTried slmB.prim,
                                   sec := writeLayer slmB.sec "k" vW }) ∧
    saveData slmC "k" vW =
      (Except.ok true, { slmC with prim := demoteTried slmC.prim, sec := demoteTried slmC.sec,
                                   ter := writeLayer slmC.ter "k" vW }) ∧
    saveData slmD "k" vW =
      (Except.error "All storage layers failed",
       { prim := demoteTried slmD.prim, sec := demoteTried slmD.sec,
         ter := demoteTried slmD.ter }) :=
  ⟨(saveData_cascade_spec slmAllOk "k" vW).1 rfl rfl,
   (saveData_cascade_spec slmB "k" vW).2.1 (by decide) rfl rfl,
   (saveData_cascade_spec slmC "k" vW).2.2.1 (by decide) (by decide) rfl rfl,
   (saveData_cascade_spec slmD "k" vW).2.2.2 (by decide) (by decide) (by decide)⟩

/-- C8. clearData attempts removal on all three backends regardless of
their health status (the stores of functioning backends lose the key even
when their health is ERROR, UNAVAILABLE or FULL), returns true exactly
when at least one removal succeeded, and leaves every backend's health
unchanged even when individual removals fail. -/
theorem clearData_all_layers_spec (s : SLM) (k : String) :
    (clearData s k).1 = (s.prim.working || s.sec.working || s.ter.working) ∧
    (clearData s k).2.prim.health = s.prim.health ∧
    (clearData s k).2.sec.health = s.sec.health ∧
    (clearData s k).2.ter.health = s.ter.health ∧
    (clearData s k).2.prim.store =
      (if s.prim.working then removeKey s.prim.store k else s.prim.store) ∧
    (clearData s k).2.sec.store =
      (if s.sec.working then removeKey s.sec.store k else s.sec.store) ∧
    (clearData s k).2.ter.store =
      (if s.ter.working then removeKey s.ter.store k else s.ter.store) := by
  by_cases w1 : s.prim.working <;> by_cases w2 : s.sec.working <;>
    by_cases w3 : s.ter.working <;> simp [clearData, clearLayer, w1, w2, w3]

/-- C9. Partial updates merge instead of overwriting: any field not
provided by the update keeps its value from the existing record, and in
particular updating the name to A and then the headline to B leaves a
record carrying both the name A and the headline B. -/
theorem updateProfile_merge_preserves :
    (∀ (ps : PSState) (env : ChromeEnv) (u : ProfileUpdate) (now : String),
      u.name = none →
      (updateProfile ps env u now).2.1.profileData.name = ps.profileData.name) ∧
    (∀ (ps : PSState) (env : ChromeEnv) (u : ProfileUpdate) (now : String),
      u.headline = none →
      (updateProfile ps env u now).2.1.profileData.headline = ps.profileData.headline) ∧
    (∀ (ps : PSState) (env : ChromeEnv) (u : ProfileUpdate) (now : String),
      u.currentRole = none →
      (updateProfile ps env u now).2.1.profileData.currentRole = ps.profileData.currentRole) ∧
    (∀ (ps : PSState) (env : ChromeEnv) (u : ProfileUpdate) (now : String),
      u.company = none →
      (updateProfile ps env u now).2.1.profileData.company = ps.profileData.company) ∧
    (∀ (ps : PSState) (env : ChromeEnv) (now1 now2 : String),
      (getProfile (updateProfile
          (updateProfile ps env { name := some "A", headline := none,
                                  currentRole := none, company := none } now1).2.1
          (updateProfile ps env { name := some "A", headline := none,
                                  currentRole := none, company := none } now1).2.2
          { name := none, headline := some "B",
            currentRole := none, company := none } now2).2.1).1.name = some "A" ∧
      (getProfile (updateProfile
          (updateProfile ps env { name := some "A", headline := none,
                                  currentRole := none, company := none } now1).2.1
          (updateProfile ps env { name := some "A", headline := none,
                                  currentRole := none, company := none } now1).2.2
          { name := none, headline := some "B",
            currentRole := none, company := none } now2).2.1).1.headline = some "B") := by
  refine ⟨?_, ?_, ?_, ?_, ?_⟩
  · intro ps env u now h
    rw [updateProfile_state]
    simp [mergedRecord, mergeProfile, h]
  · intro ps env u now h
    rw [updateProfile_state]
    simp [mergedRecord, mergeProfile, h]
  · intro ps env u now h
    rw [updateProfile_state]
    simp [mergedRecord, mergeProfile, h]
  · intro ps env u now h
    rw [updateProfile_state]
    simp [mergedRecord, mergeProfile, h]
  · intro ps env now1 now2
    rw [updateProfile_state, updateProfile_state]
    simp [getProfile, mergedRecord, mergeProfile]

/-- C9 witness: a name-only update preserves the stored headline, and
the concrete name-then-headline scenario yields the name A. -/
theorem updateProfile_merge_preserves_witness :
    (updateProfile psFull envUp uName "t4").2.1.profileData.headline =
      psFull.profileData.headline ∧
    (getProfile (updateProfile
        (updateProfile psEmpty envUp { name := some "A", headline := none,
                                       currentRole := none, company := none } "t5").2.1
        (updateProfile psEmpty envUp { name := some "A", headline := none,
                                       currentRole := none, company := none } "t5").2.2
        { name := none, headline := some "B",
          currentRole := none, company := none } "t6").2.1).1.name = some "A" :=
  ⟨updateProfile_merge_preserves.2.1 psFull envUp uName "t4" rfl,
   (updateProfile_merge_preserves.2.2.2.2 psEmpty envUp "t5" "t6").1⟩

/-- C10. The clear path of the record store resets only the in-memory
record (all five fields to null, the cached isValid flag to false) and
performs no backend removal: the chrome environment is passed through
unchanged, and when the backend functions, the persisted copy is still
exactly what loadProfile returns afterwards. -/
theorem clearProfile_in_memory_only (ps : PSState) (env : ChromeEnv) :
    systemClearProfile ps env = ({ profileData := emptyProfile, isValid := false }, env) ∧
    (env.working = true →
      (loadProfile (systemClearProfile ps env).2).1 = Except.ok env.store) := by
  constructor
  · rfl
  · intro hw
    simp [systemClearProfile, loadProfile_ok env hw]

/-- C10 witness: clearing a full in-memory record against a functioning
backend leaves the persisted copy reloadable. -/
theorem clearProfile_in_memory_only_witness :
    systemClearProfile psFull envUp = ({ profileData := emptyProfile, isValid := false }, envUp) ∧
    (loadProfile (systemClearProfile psFull envUp).2).1 = Except.ok envUp.store :=
  ⟨(clearProfile_in_memory_only psFull envUp).1,
   (clearProfile_in_memory_only psFull envUp).2 rfl⟩
